import Mathlib

/-!
Shallow embedding of the session controller in `src/App.jsx` (the "Lingo Mini"
quiz client).  The component's reactive state (`useState` hooks) is modelled as
an explicit record `AppState`; each `setX(v)` call becomes a functional record
update applied in program order.  Every `fetch`-based remote operation is
modelled as a function that also takes the outcome of its remote call
(`Fetch α`): `Fetch.ok data` stands for a fetch whose response decoded to
`data`, and `Fetch.fail` stands for any throw inside the `try` block (transport
failure or `res.json()` decode failure) — in both cases control jumps to the
`catch`/`finally` clauses exactly as in the source.
-/

namespace LingoMini

/-- A course as returned by `GET /api/courses` (fields used by the app). -/
structure Course where
  id : Nat
  name : String
  code : String
deriving Repr, DecidableEq

/-- A lesson as returned by `GET /api/courses/:id/lessons`.  The `order` field
may be absent (`a.order||0` in the source treats a missing order as 0). -/
structure Lesson where
  id : Nat
  courseId : Nat
  order : Option Int
  title : String
deriving Repr, DecidableEq

/-- An exercise as returned by `GET /api/lessons/:id/exercises`. -/
structure Exercise where
  id : Nat
  lessonId : Nat
  kind : String
  prompt : String
  options : List String
deriving Repr, DecidableEq

/-- The decoded body of a `POST /api/answer` response. -/
structure CheckResult where
  correct : Bool
  expected : String
deriving Repr, DecidableEq

/-- The body the app sends to `POST /api/answer`:
`JSON.stringify(\x7b exercise_id: ex.id, answer \x7d)`. -/
structure AnswerRequest where
  exercise_id : Nat
  answer : String
deriving Repr, DecidableEq

/-- The values ever assigned to the `step` state variable in `App.jsx`:
`'home'`, `'play'`, `'result'`. -/
inductive Step where
  | home
  | play
  | result
deriving Repr, DecidableEq

/-- The component state: one field per `useState` hook of `App`, in source
order.  `loading` is the busy flag, `idx` is the current exercise index,
`answer` is the draft answer, `result` is the last check result. -/
structure AppState where
  loading : Bool
  courses : List Course
  selectedCourse : Option Course
  lessons : List Lesson
  selectedLesson : Option Lesson
  exercises : List Exercise
  step : Step
  idx : Nat
  answer : String
  result : Option CheckResult
  score : Nat
deriving Repr, DecidableEq

/-- Outcome of one remote call: `ok data` when the fetch succeeded and its
response decoded to `data`; `fail` when the fetch or the decode threw. -/
inductive Fetch (α : Type) where
  | ok (data : α)
  | fail
deriving Repr, DecidableEq

/-- Sort key of a lesson: `a.order||0` in the source (missing order → 0). -/
def lessonKey (l : Lesson) : Int :=
  l.order.getD 0

/-- Comparator relation induced by `(a,b) => (a.order||0) - (b.order||0)`:
`a` may stay left of `b` exactly when the comparator is non-positive. -/
def lessonLE (a b : Lesson) : Prop :=
  lessonKey a ≤ lessonKey b

instance : DecidableRel lessonLE := fun a b =>
  inferInstanceAs (Decidable (lessonKey a ≤ lessonKey b))

instance : IsTotal Lesson lessonLE :=
  ⟨fun a b => Int.le_total (lessonKey a) (lessonKey b)⟩

instance : IsTrans Lesson lessonLE :=
  ⟨fun _ _ _ hab hbc => Int.le_trans hab hbc⟩

/-- Model of `data.sort((a,b) => (a.order||0) - (b.order||0))`.
ECMAScript guarantees `Array.prototype.sort` is stable, and with this numeric
comparator its output is the unique stable reordering that is ascending in
`lessonKey`; `List.insertionSort lessonLE` computes exactly that reordering
(sorted by `List.sorted_insertionSort`, stable by `List.sublist_insertionSort`). -/
def sortLessons (data : List Lesson) : List Lesson :=
  data.insertionSort lessonLE

/-- State from which `loadCourses` issues its `GET /api/courses` fetch: the
function mutates nothing before the fetch (in particular it never touches
`loading`). -/
def loadCoursesPreFetch (s : AppState) : AppState :=
  s

/-- State from which `loadLessons` issues its fetch: the source runs
`setLessons([]); setSelectedLesson(null); setExercises([])` before the `try`
block, so these three fields are cleared unconditionally. -/
def loadLessonsPreFetch (s : AppState) : AppState :=
  { s with lessons := [], selectedLesson := none, exercises := [] }

/-- `loadLessons(course)`: clear lessons/selectedLesson/exercises, then fetch
the course's lessons; on success store them sorted by `order`; on failure only
`console.error` (the cleared fields stay cleared). -/
def loadLessons (course : Course) (f : Fetch (List Lesson)) (s : AppState) :
    AppState :=
  let s1 := loadLessonsPreFetch s
  match course, f with
  | _, .ok data => { s1 with lessons := sortLessons data }
  | _, .fail => s1

/-- `loadCourses()`: fetch the course list; on success store it and, when
non-empty, select the first course and run `loadLessons` for it (whose own
failure is caught inside `loadLessons`); on failure only `console.error`. -/
def loadCourses (fc : Fetch (List Course)) (fl : Fetch (List Lesson))
    (s : AppState) : AppState :=
  match fc with
  | .fail => s
  | .ok data =>
    match data with
    | [] => { s with courses := [] }
    | c :: rest =>
      loadLessons c fl { s with courses := c :: rest, selectedCourse := some c }

/-- `seedDemo()`: set `loading`, POST `/api/seed`; on success run
`loadCourses` (which swallows its own errors); on failure skip it; `finally`
clears `loading`. -/
def seedDemo (fseed : Fetch Unit) (fc : Fetch (List Course))
    (fl : Fetch (List Lesson)) (s : AppState) : AppState :=
  let s1 := { s with loading := true }
  match fseed with
  | .ok _ => { loadCourses fc fl s1 with loading := false }
  | .fail => { s1 with loading := false }

/-- State from which `startLesson` issues its exercises fetch: the source runs
`setSelectedLesson(lesson); setLoading(true)` before the `try` block. -/
def startLessonPreFetch (lesson : Lesson) (s : AppState) : AppState :=
  { s with selectedLesson := some lesson, loading := true }

/-- `startLesson(lesson)`: select the lesson, set `loading`, fetch its
exercises; on success store them and reset `idx`, `score`, `answer`, `result`
and go to the `'play'` step; on failure only `console.error`; `finally` clears
`loading`. -/
def startLesson (lesson : Lesson) (f : Fetch (List Exercise)) (s : AppState) :
    AppState :=
  let s1 := startLessonPreFetch lesson s
  match f with
  | .ok data =>
    { s1 with exercises := data, idx := 0, score := 0, answer := "",
              result := none, step := Step.play, loading := false }
  | .fail => { s1 with loading := false }

/-- State from which `submitCurrent` issues its `POST /api/answer` fetch:
after the `if (!ex) return` guard the source runs `setLoading(true)`; when
there is no current exercise no fetch is issued and nothing changes. -/
def submitPreFetch (s : AppState) : AppState :=
  match s.exercises[s.idx]? with
  | none => s
  | some _ => { s with loading := true }

/-- `submitCurrent()`: read `exercises[idx]`; return immediately when it is
absent (`if (!ex) return`); otherwise set `loading`, POST the exercise id and
draft answer; on success store the result and add 10 to the score when
`correct`; on failure only `console.error`; `finally` clears `loading`.
The second component is the request body sent, `none` when no call was made. -/
def submitCurrent (f : Fetch CheckResult) (s : AppState) :
    AppState × Option AnswerRequest :=
  match s.exercises[s.idx]? with
  | none => (s, none)
  | some ex =>
    let req : AnswerRequest := ⟨ex.id, s.answer⟩
    let s1 := { s with loading := true }
    match f with
    | .ok data =>
      let s2 := { s1 with result := some data }
      let s3 := if data.correct then { s2 with score := s2.score + 10 } else s2
      ({ s3 with loading := false }, some req)
    | .fail => ({ s1 with loading := false }, some req)

/-- `next()`: if `idx+1 >= exercises.length` go to the `'result'` step,
otherwise advance to `idx+1`, clearing the draft answer and the result. -/
def next (s : AppState) : AppState :=
  let nextIdx := s.idx + 1
  if s.exercises.length ≤ nextIdx then
    { s with step := Step.result }
  else
    { s with idx := nextIdx, answer := "", result := none }

/-- `resetToHome()`: back to the home step, clearing selected lesson,
exercises, index, draft answer and result — `score` is not touched. -/
def resetToHome (s : AppState) : AppState :=
  { s with step := Step.home, selectedLesson := none, exercises := [],
           idx := 0, answer := "", result := none }

/-- The Play screen renders only when `exercises[idx]` exists
(`const Play = current && (...)` in the source). -/
def playHasCurrent (s : AppState) : Bool :=
  (s.exercises[s.idx]?).isSome

/-- The Check button exists in the rendered tree only on the play step, with a
current exercise, and while no result is shown (`{!result ? <Button ...` ). -/
def checkButtonShown (s : AppState) : Bool :=
  decide (s.step = Step.play) && playHasCurrent s && s.result.isNone

/-- The Check button is clickable: shown and not disabled
(`disabled=\x7bloading || !answer\x7d`, where `!answer` is true exactly for the
empty string). -/
def checkButtonEnabled (s : AppState) : Bool :=
  checkButtonShown s && (!s.loading && !(decide (s.answer = "")))

/-- The submit action as it is invocable in the app: clicking the Check button
runs `submitCurrent` only when the button is rendered and enabled; otherwise
nothing happens and no request is sent. -/
def clickCheck (f : Fetch CheckResult) (s : AppState) :
    AppState × Option AnswerRequest :=
  if checkButtonEnabled s then submitCurrent f s else (s, none)

/-- The Start button of a lesson row (`disabled=\x7bloading\x7d`): clicking it
runs `startLesson` only while not loading. -/
def clickStart (lesson : Lesson) (f : Fetch (List Exercise)) (s : AppState) :
    AppState :=
  if s.loading then s else startLesson lesson f s

/-! Concrete fixtures used by counterexamples and witnesses. -/

/-- A sample course. -/
def courseA : Course := ⟨1, "Spanish", "es"⟩

/-- A sample lesson of `courseA`. -/
def lessonA : Lesson := ⟨1, 1, some 1, "Basics"⟩

/-- A second sample lesson of `courseA`. -/
def lessonB : Lesson := ⟨2, 1, some 2, "Food"⟩

/-- A sample multiple-choice exercise. -/
def exA : Exercise := ⟨1, 1, "mcq", "hola?", ["hello", "bye"]⟩

/-- A sample free-text exercise. -/
def exB : Exercise := ⟨2, 1, "text", "adios?", []⟩

/-- A sample correct answer-check result. -/
def resA : CheckResult := ⟨true, "hello"⟩

/-- The component's initial state: every hook at its `useState` default. -/
def initState : AppState :=
  ⟨false, [], none, [], none, [], Step.home, 0, "", none, 0⟩

/-- A mid-session state with known-good catalog data and one exercise. -/
def sessionState : AppState :=
  ⟨false, [courseA], some courseA, [lessonA], some lessonA, [exA],
   Step.play, 0, "", none, 10⟩

/-- A home-screen state with a remote call in flight (`loading = true`). -/
def busyHomeState : AppState :=
  ⟨true, [courseA], some courseA, [lessonA], some lessonA, [],
   Step.home, 0, "", none, 0⟩

/-- A play-step state on the first of two exercises, empty draft. -/
def playState : AppState :=
  ⟨false, [courseA], some courseA, [lessonA], some lessonA, [exA, exB],
   Step.play, 0, "", none, 0⟩

/-- A play-step state reviewing the result of the last exercise. -/
def reviewLastState : AppState :=
  ⟨false, [courseA], some courseA, [lessonA], some lessonA, [exA],
   Step.play, 0, "hello", some resA, 10⟩

/-- Lessons with order values 2, 1, 1, 3 in fetched order. -/
def lOrd2 : Lesson := ⟨1, 1, some 2, "w"⟩

/-- Second fetched lesson, order 1. -/
def lOrd1a : Lesson := ⟨2, 1, some 1, "x"⟩

/-- Third fetched lesson, order 1 (ties with `lOrd1a`). -/
def lOrd1b : Lesson := ⟨3, 1, some 1, "y"⟩

/-- Fourth fetched lesson, order 3. -/
def lOrd3 : Lesson := ⟨4, 1, some 3, "z"⟩

/-! Shared helper lemmas. -/

/-- `loadLessons` never touches the `loading` flag. -/
theorem loadLessons_loading (course : Course) (f : Fetch (List Lesson))
    (s : AppState) : (loadLessons course f s).loading = s.loading := by
  cases f <;> rfl

/-- `loadCourses` never touches the `loading` flag. -/
theorem loadCourses_loading (fc : Fetch (List Course)) (fl : Fetch (List Lesson))
    (s : AppState) : (loadCourses fc fl s).loading = s.loading := by
  cases fc with
  | fail => rfl
  | ok data =>
    cases data with
    | nil => rfl
    | cons c rest => exact loadLessons_loading c fl _

/-- `loadLessons` never touches `score`. -/
theorem loadLessons_score (course : Course) (f : Fetch (List Lesson))
    (s : AppState) : (loadLessons course f s).score = s.score := by
  cases f <;> rfl

/-- `loadCourses` never touches `score`. -/
theorem loadCourses_score (fc : Fetch (List Course)) (fl : Fetch (List Lesson))
    (s : AppState) : (loadCourses fc fl s).score = s.score := by
  cases fc with
  | fail => rfl
  | ok data =>
    cases data with
    | nil => rfl
    | cons c rest => exact loadLessons_score c fl _

/-! Claim C1.  The claim says a failed fetch in `loadLessons`/`startLesson`
leaves every session field unmutated.  The source mutates state before its
`try` block: `loadLessons` clears `lessons`, `selectedLesson`, `exercises`
unconditionally, and `startLesson` sets `selectedLesson` unconditionally, so
a failure does leave mutations behind. -/

/-- C1 (counterexample): from a state with a lesson list, a selected lesson
and an exercise list, a failed `loadLessons` fetch leaves `lessons` and
`selectedLesson` changed, and a failed `startLesson` fetch leaves
`selectedLesson` changed — so the failed operation does mutate session
fields, contrary to the claim. -/
theorem C1_counterexample :
    (loadLessons courseA Fetch.fail sessionState).lessons
        ≠ sessionState.lessons ∧
    (loadLessons courseA Fetch.fail sessionState).selectedLesson
        ≠ sessionState.selectedLesson ∧
    (loadLessons courseA Fetch.fail sessionState).exercises
        ≠ sessionState.exercises ∧
    (startLesson lessonB Fetch.fail sessionState).selectedLesson
        ≠ sessionState.selectedLesson := by
  decide

/-- C1 (amended): on a failed fetch, `loadLessons` leaves the state equal to
the prior state except that `lessons`, `selectedLesson` and `exercises` are
cleared (they are cleared before the fetch), and `startLesson` leaves the
state equal to the prior state except that `selectedLesson` is set to the
target lesson and `loading` ends false; no other field is mutated by either
failed operation. -/
theorem C1_amended :
    (∀ (course : Course) (s : AppState),
      loadLessons course Fetch.fail s =
        { s with lessons := [], selectedLesson := none, exercises := [] }) ∧
    (∀ (lesson : Lesson) (s : AppState),
      startLesson lesson Fetch.fail s =
        { s with selectedLesson := some lesson, loading := false }) := by
  constructor
  · intro course s
    rfl
  · intro lesson s
    rfl

/-! Claim C2.  The claim says the busy flag is set before every remote call
(including `loadCourses` and `loadLessons`) and that second concurrent calls
are rejected as no-ops.  In the source, `loadCourses` and `loadLessons` never
touch `loading`, and nothing stops `loadLessons` from running while
`loading` is true (only the Start and Check buttons are disabled). -/

/-- C2 (counterexample): `loadCourses` issues its fetch from the state it was
given with no mutation at all — from the initial state the busy flag is still
false at fetch time — and `loadLessons` both issues its fetch with the flag
still false and runs (mutating state) from a state whose busy flag is true,
so it is not rejected as a no-op. -/
theorem C2_counterexample :
    loadCoursesPreFetch initState = initState ∧
    initState.loading = false ∧
    (loadLessonsPreFetch initState).loading = false ∧
    busyHomeState.loading = true ∧
    loadLessons courseA Fetch.fail busyHomeState ≠ busyHomeState := by
  decide

/-- C2 (amended): only `startLesson`, `submitCurrent` and `seedDemo` set the
busy flag before their remote call and clear it on completion, success or
failure; `loadCourses` and `loadLessons` leave the flag untouched; while busy,
the Start and Check buttons are disabled, so the operations they trigger are
rejected as no-ops, but no function-level guard exists. -/
theorem C2_amended :
    (∀ (fc : Fetch (List Course)) (fl : Fetch (List Lesson)) (s : AppState),
      (loadCourses fc fl s).loading = s.loading) ∧
    (∀ (course : Course) (f : Fetch (List Lesson)) (s : AppState),
      (loadLessons course f s).loading = s.loading) ∧
    (∀ (lesson : Lesson) (s : AppState),
      (startLessonPreFetch lesson s).loading = true) ∧
    (∀ (lesson : Lesson) (f : Fetch (List Exercise)) (s : AppState),
      (startLesson lesson f s).loading = false) ∧
    (∀ s : AppState,
      (submitPreFetch s).loading =
        if (s.exercises[s.idx]?).isSome then true else s.loading) ∧
    (∀ (f : Fetch CheckResult) (s : AppState),
      ((submitCurrent f s).1).loading =
        if (s.exercises[s.idx]?).isSome then false else s.loading) ∧
    (∀ (fseed : Fetch Unit) (fc : Fetch (List Course))
        (fl : Fetch (List Lesson)) (s : AppState),
      (seedDemo fseed fc fl s).loading = false) ∧
    (∀ (lesson : Lesson) (f : Fetch (List Exercise)) (s : AppState),
      clickStart lesson f { s with loading := true } =
        { s with loading := true }) ∧
    (∀ (f : Fetch CheckResult) (s : AppState),
      clickCheck f { s with loading := true } =
        ({ s with loading := true }, none)) := by
  refine ⟨loadCourses_loading, loadLessons_loading, ?_, ?_, ?_, ?_, ?_, ?_, ?_⟩
  · intro lesson s
    rfl
  · intro lesson f s
    cases f <;> rfl
  · intro s
    unfold submitPreFetch
    cases h : s.exercises[s.idx]? <;> simp [h]
  · intro f s
    unfold submitCurrent
    cases h : s.exercises[s.idx]? with
    | none => simp [h]
    | some ex =>
      cases f with
      | fail => simp [h]
      | ok data => cases hc : data.correct <;> simp [h, hc]
  · intro fseed fc fl s
    cases fseed <;> rfl
  · intro lesson f s
    simp [clickStart]
  · intro f s
    simp [clickCheck, checkButtonEnabled]

/-! Claim C3.  The empty-draft guard lives in the Play screen: the Check
button that invokes `submitCurrent` is rendered with
`disabled=\x7bloading || !answer\x7d`, so with an empty draft the submit
action cannot fire and is a no-op. -/

/-- C3: in every state whose draft answer is the empty string, the submit
action leaves the state unchanged and sends no answer-check request. -/
theorem C3_empty_draft_submit_noop (f : Fetch CheckResult) (s : AppState)
    (h : s.answer = "") : clickCheck f s = (s, none) := by
  simp [clickCheck, checkButtonEnabled, h]

/-- C3 (witness): concrete instance on a play-step state with an empty
draft. -/
theorem C3_empty_draft_submit_noop_witness :
    playState.answer = "" ∧ clickCheck Fetch.fail playState = (playState, none) :=
  ⟨rfl, C3_empty_draft_submit_noop Fetch.fail playState rfl⟩

/-! Claim C4.  The claim says a successful `startLesson` with an empty
exercise list goes straight to the result/summary screen.  The source sets
`setStep('play')` unconditionally on success, so the app lands on the play
step; the play screen then renders nothing (`const Play = current && ...`
with no current exercise), but the step is not `'result'`. -/

/-- C4 (counterexample): starting a lesson whose fetched exercise list is
empty leaves the app on the play step — not on the result/summary step the
claim requires (score and index are 0 as claimed). -/
theorem C4_counterexample :
    (startLesson lessonA (Fetch.ok []) initState).step = Step.play ∧
    (startLesson lessonA (Fetch.ok []) initState).step ≠ Step.result ∧
    (startLesson lessonA (Fetch.ok []) initState).score = 0 ∧
    (startLesson lessonA (Fetch.ok []) initState).idx = 0 := by
  decide

/-- C4 (amended): when `startLesson` succeeds with an empty exercise list the
session enters the play step with `score = 0` and `currentIndex = 0`; the
play screen renders no exercise (there is no current exercise, so the
answering UI never appears), but the app does not transition to the
result/summary step. -/
theorem C4_amended :
    ∀ (lesson : Lesson) (s : AppState),
      startLesson lesson (Fetch.ok []) s =
        { s with selectedLesson := some lesson, exercises := [], idx := 0,
                 score := 0, answer := "", result := none, step := Step.play,
                 loading := false } ∧
      playHasCurrent (startLesson lesson (Fetch.ok []) s) = false := by
  intro lesson s
  exact ⟨rfl, rfl⟩

/-! Claim C5.  `next()` behaviour, translated directly from the source. -/

/-- C5: `next()` advances to `currentIndex + 1` when that index is in bounds,
clearing the draft answer and the last result (all other fields unchanged),
and otherwise moves to the result step (all other fields unchanged); in both
cases the score is untouched, so along any run of in-bounds `next()` calls the
index strictly increases by 1 and the score never decreases. -/
theorem C5_next_advances (s : AppState) :
    (s.idx + 1 < s.exercises.length →
      next s = { s with idx := s.idx + 1, answer := "", result := none }) ∧
    (s.exercises.length ≤ s.idx + 1 →
      next s = { s with step := Step.result }) ∧
    (next s).score = s.score := by
  refine ⟨?_, ?_, ?_⟩
  · intro h
    have hn : ¬ s.exercises.length ≤ s.idx + 1 := Nat.not_le.mpr h
    simp [next, hn]
  · intro h
    simp [next, h]
  · by_cases h : s.exercises.length ≤ s.idx + 1 <;> simp [next, h]

/-- C5 (witness): concrete instances of both branches — an in-bounds advance
from index 0 of a two-exercise session, and the transition to the result step
from the last exercise of a one-exercise session. -/
theorem C5_next_advances_witness :
    next playState = { playState with idx := 1, answer := "", result := none } ∧
    next reviewLastState = { reviewLastState with step := Step.result } :=
  ⟨(C5_next_advances playState).1 (by decide),
   (C5_next_advances reviewLastState).2.1 (by decide)⟩

/-! Claim C6.  Score accounting: translated from `submitCurrent`
(`if (data.correct) setScore(s => s + 10)`) and `startLesson`
(`setScore(0)` on success only). -/

/-- C6: no operation ever decreases the score; a submission increases it by
exactly 10 when the check succeeds with `correct = true` (no partial credit)
and leaves it unchanged otherwise; `startLesson` resets it to 0 on success
and leaves it unchanged on failure; and `loadCourses`, `loadLessons`,
`seedDemo`, `next` and `resetToHome` all leave it unchanged. -/
theorem C6_score_rules :
    (∀ (fc : Fetch (List Course)) (fl : Fetch (List Lesson)) (s : AppState),
      (loadCourses fc fl s).score = s.score) ∧
    (∀ (course : Course) (f : Fetch (List Lesson)) (s : AppState),
      (loadLessons course f s).score = s.score) ∧
    (∀ (fseed : Fetch Unit) (fc : Fetch (List Course))
        (fl : Fetch (List Lesson)) (s : AppState),
      (seedDemo fseed fc fl s).score = s.score) ∧
    (∀ s : AppState, (next s).score = s.score) ∧
    (∀ s : AppState, (resetToHome s).score = s.score) ∧
    (∀ (f : Fetch CheckResult) (s : AppState),
      s.score ≤ ((submitCurrent f s).1).score) ∧
    (∀ (r : CheckResult) (s : AppState),
      ((submitCurrent (Fetch.ok r) s).1).score =
        if (s.exercises[s.idx]?).isSome && r.correct then s.score + 10
        else s.score) ∧
    (∀ s : AppState, ((submitCurrent Fetch.fail s).1).score = s.score) ∧
    (∀ (lesson : Lesson) (d : List Exercise) (s : AppState),
      (startLesson lesson (Fetch.ok d) s).score = 0) ∧
    (∀ (lesson : Lesson) (s : AppState),
      (startLesson lesson Fetch.fail s).score = s.score) := by
  have hsub : ∀ (r : CheckResult) (s : AppState),
      ((submitCurrent (Fetch.ok r) s).1).score =
        if (s.exercises[s.idx]?).isSome && r.correct then s.score + 10
        else s.score := by
    intro r s
    unfold submitCurrent
    cases h : s.exercises[s.idx]? with
    | none => simp [h]
    | some ex => cases hc : r.correct <;> simp [h, hc]
  have hfail : ∀ s : AppState,
      ((submitCurrent Fetch.fail s).1).score = s.score := by
    intro s
    unfold submitCurrent
    cases h : s.exercises[s.idx]? <;> simp [h]
  refine ⟨loadCourses_score, loadLessons_score, ?_, ?_, ?_, ?_, hsub, hfail,
      ?_, ?_⟩
  · intro fseed fc fl s
    cases fseed with
    | fail => rfl
    | ok u =>
      show (loadCourses fc fl { s with loading := true }).score = s.score
      exact loadCourses_score fc fl _
  · intro s
    by_cases h : s.exercises.length ≤ s.idx + 1 <;> simp [next, h]
  · intro s
    rfl
  · intro f s
    cases f with
    | fail => exact Nat.le_of_eq (hfail s).symm
    | ok r =>
      rw [hsub r s]
      split
      · exact Nat.le_add_right _ _
      · exact Nat.le_refl _
  · intro lesson d s
    rfl
  · intro lesson s
    rfl

/-! Claim C7.  The claim says `lastResult` is cleared by every `next()` call
and by every `startLesson`.  In the source, `next()` clears `result` only in
its advancing branch — the branch that moves to the result step leaves it
untouched — and `startLesson` clears it only when its fetch succeeds. -/

/-- C7 (counterexample): calling `next()` while reviewing the last exercise
transitions to the result step but leaves `lastResult` set, so `next()` does
not clear it on every call. -/
theorem C7_counterexample :
    (next reviewLastState).result = some resA ∧
    (next reviewLastState).result ≠ none := by
  decide

/-- C7 (amended): `lastResult` is cleared by `next()` exactly when it
advances to an in-bounds next exercise, and by `startLesson` exactly when the
exercise fetch succeeds; a `next()` that moves to the result step and a
`startLesson` whose fetch fails both leave `lastResult` unchanged. -/
theorem C7_amended :
    (∀ s : AppState, s.idx + 1 < s.exercises.length → (next s).result = none) ∧
    (∀ s : AppState, s.exercises.length ≤ s.idx + 1 →
      (next s).result = s.result) ∧
    (∀ (lesson : Lesson) (d : List Exercise) (s : AppState),
      (startLesson lesson (Fetch.ok d) s).result = none) ∧
    (∀ (lesson : Lesson) (s : AppState),
      (startLesson lesson Fetch.fail s).result = s.result) := by
  refine ⟨?_, ?_, ?_, ?_⟩
  · intro s h
    have hn : ¬ s.exercises.length ≤ s.idx + 1 := Nat.not_le.mpr h
    simp [next, hn]
  · intro s h
    simp [next, h]
  · intro lesson d s
    rfl
  · intro lesson s
    rfl

/-- C7 (amended, witness): concrete instances — an in-bounds `next()` clears
the result, a `next()` from the last exercise keeps it, a successful
`startLesson` clears it, a failed one keeps it. -/
theorem C7_amended_witness :
    (next playState).result = none ∧
    (next reviewLastState).result = reviewLastState.result ∧
    (startLesson lessonA (Fetch.ok [exA]) reviewLastState).result = none ∧
    (startLesson lessonA Fetch.fail reviewLastState).result
      = reviewLastState.result :=
  ⟨C7_amended.1 playState (by decide),
   C7_amended.2.1 reviewLastState (by decide),
   C7_amended.2.2.1 lessonA [exA] reviewLastState,
   C7_amended.2.2.2 lessonA reviewLastState⟩

/-! Claim C8.  `loadLessons` sorts via
`data.sort((a,b) => (a.order||0) - (b.order||0))`: ascending by the numeric
key `order||0`, stable per the ECMAScript specification of
`Array.prototype.sort`. -/

/-- Stability of the lesson sort, stated through filters: for any key value,
the elements carrying that key appear in the sorted output exactly in the
order the input supplied them. -/
theorem filter_sortLessons (data : List Lesson) (k : Int) :
    (sortLessons data).filter (fun l => decide (lessonKey l = k)) =
      data.filter (fun l => decide (lessonKey l = k)) := by
  have hsub : List.Sublist
      (data.filter (fun l => decide (lessonKey l = k))) data :=
    List.filter_sublist data
  have hpair : (data.filter (fun l => decide (lessonKey l = k))).Pairwise
      lessonLE := by
    apply List.pairwise_of_forall_mem_list
    intro a ha b hb
    have hak : lessonKey a = k := of_decide_eq_true (List.mem_filter.mp ha).2
    have hbk : lessonKey b = k := of_decide_eq_true (List.mem_filter.mp hb).2
    show lessonKey a ≤ lessonKey b
    rw [hak, hbk]
  have hstable : List.Sublist
      (data.filter (fun l => decide (lessonKey l = k))) (sortLessons data) :=
    List.sublist_insertionSort hpair hsub
  have hidem : (data.filter (fun l => decide (lessonKey l = k))).filter
      (fun l => decide (lessonKey l = k)) =
      data.filter (fun l => decide (lessonKey l = k)) :=
    List.filter_eq_self.mpr (fun a ha => (List.mem_filter.mp ha).2)
  have hfil : List.Sublist
      (data.filter (fun l => decide (lessonKey l = k)))
      ((sortLessons data).filter (fun l => decide (lessonKey l = k))) := by
    have h2 := hstable.filter (fun l => decide (lessonKey l = k))
    rwa [hidem] at h2
  have hperm : List.Perm (sortLessons data) data :=
    List.perm_insertionSort lessonLE data
  have hlen : (data.filter (fun l => decide (lessonKey l = k))).length =
      ((sortLessons data).filter (fun l => decide (lessonKey l = k))).length :=
    ((hperm.filter (fun l => decide (lessonKey l = k))).length_eq).symm
  exact (hfil.eq_of_length hlen).symm

/-- C8: a successful `loadLessons` stores the fetched lessons sorted ascending
by their `order` key (missing order read as 0), and the sort is stable: for
every key value, the lessons carrying it keep the relative order the service
returned them in; in particular, for fetched order values [2, 1, 1, 3] the two
order-1 lessons keep their fetched relative order. -/
theorem C8_lessons_sorted_stable :
    ∀ (course : Course) (data : List Lesson) (s : AppState) (k : Int),
      ((loadLessons course (Fetch.ok data) s).lessons).Pairwise lessonLE ∧
      ((loadLessons course (Fetch.ok data) s).lessons).filter
          (fun l => decide (lessonKey l = k)) =
        data.filter (fun l => decide (lessonKey l = k)) ∧
      sortLessons [lOrd2, lOrd1a, lOrd1b, lOrd3] =
        [lOrd1a, lOrd1b, lOrd2, lOrd3] := by
  intro course data s k
  refine ⟨?_, ?_, ?_⟩
  · show (sortLessons data).Pairwise lessonLE
    exact List.sorted_insertionSort lessonLE data
  · show (sortLessons data).filter _ = _
    exact filter_sortLessons data k
  · decide

/-! Claim C9.  `resetToHome` translated directly from the source: it clears
the navigation and per-exercise fields but never touches `score` (or the
catalog fields). -/

/-- C9: exiting to the catalog clears the selected lesson, the exercise list,
the index, the draft answer and the last result, while the score (and the
loaded catalog) is left unchanged; the score is reset to 0 by a subsequent
successful `startLesson`. -/
theorem C9_resetToHome_frame :
    (∀ s : AppState,
      resetToHome s =
        { s with step := Step.home, selectedLesson := none, exercises := [],
                 idx := 0, answer := "", result := none } ∧
      (resetToHome s).score = s.score ∧
      (resetToHome s).lessons = s.lessons ∧
      (resetToHome s).courses = s.courses ∧
      (resetToHome s).selectedCourse = s.selectedCourse) ∧
    (∀ (lesson : Lesson) (d : List Exercise) (s : AppState),
      (startLesson lesson (Fetch.ok d) (resetToHome s)).score = 0) := by
  constructor
  · intro s
    exact ⟨rfl, rfl, rfl, rfl, rfl⟩
  · intro lesson d s
    rfl

/-! Claim C10.  The `if (!ex) return` guard at the top of `submitCurrent`:
with `currentIndex` out of bounds `exercises[idx]` is `undefined` and the
function returns before touching any state or issuing the POST. -/

/-- C10: when `currentIndex` is out of bounds of the exercise list, `submit`
returns the state unchanged and sends no answer-check request. -/
theorem C10_submit_out_of_bounds_noop (f : Fetch CheckResult) (s : AppState)
    (h : s.exercises.length ≤ s.idx) : submitCurrent f s = (s, none) := by
  have hnone : s.exercises[s.idx]? = none := List.getElem?_eq_none h
  unfold submitCurrent
  simp [hnone]

/-- C10 (witness): concrete instance on the initial state, whose exercise
list is empty. -/
theorem C10_submit_out_of_bounds_noop_witness :
    initState.exercises.length ≤ initState.idx ∧
    submitCurrent Fetch.fail initState = (initState, none) :=
  ⟨by decide, C10_submit_out_of_bounds_noop Fetch.fail initState (by decide)⟩

end LingoMini
